/-
  Verification of the QC-driven series-selection and manifest-derivation
  engine of the abcd_dicom2bids_s3 repository.

  The definitions below are a shallow embedding of the Python source:
  * `src/abcd-dicom2bids/src/s3_downloader_revised.py` — the per-session
    modality selectors `add_anat_paths`, `add_func_paths`, `add_dwi_paths`,
    the per-session body of `main` (`processSession`), the running global
    tallies (`updateTallies`) and the missing-file logging loop
    (`missingEntries`);
  * `src/abcd-dicom2bids/abcd2bids.py` — the series-time padding and
    filename-suffix computation of `reformat_fastqc_spreadsheet`.

  Pandas DataFrames are embedded as Lean lists of rows; a DataFrame filter
  `df[df['c'] == v]` becomes `List.filter`, `df.shape[0]` becomes
  `List.length`, `df.empty` becomes `List.isEmpty`, and appending rows in a
  loop becomes list concatenation in the same order.
-/
import Mathlib

namespace Abcd

/-- One row of the reformatted QC spreadsheet as consumed by
`s3_downloader_revised.py`: the columns the selector functions read are
`SeriesType`, `usable` (the QC flag, compared against 0) and `filename`
(the precomputed semicolon-joined relative path). -/
structure QcRow where
  seriesType : String
  usable : Nat
  filename : String
deriving DecidableEq

/-- Embedding of the DataFrame filter `df[df['SeriesType'] == t]`. -/
def isType (t : String) (r : QcRow) : Bool := r.seriesType == t

/-- Embedding of the AP/PA pairing loop shared by `add_func_paths` and
`add_dwi_paths`: `for i in range(0, upper_range)` with
`upper_range = min(len(AP), len(PA))` visits the index pairs
`(AP[i], PA[i])`, keeping a pair exactly when both members have
`usable != 0.0`.  `List.zip` truncates to the smaller length, so the
kept pairs are the usable ones among `zip AP PA`. -/
def fmPairs (ap pa : List QcRow) : List (QcRow × QcRow) :=
  (ap.zip pa).filter (fun p => p.1.usable != 0 && p.2.usable != 0)

/-- The rows appended to the field-map frame by the pairing loop:
for each kept pair `FM_df.append(AP[i]); FM_df.append(PA[i])`. -/
def pairRows (ap pa : List QcRow) : List QcRow :=
  (fmPairs ap pa).flatMap (fun p => [p.1, p.2])

/-- Embedding of `add_anat_paths(passed_QC_group, file_paths)`
(s3_downloader_revised.py lines 253-284): for each of T1 and T2
independently, prefer the `-NORM` rows when any pass QC, otherwise fall
back to the plain rows; append the selected filenames and report the
selected row count. -/
def add_anat_paths (passed_QC_group : List QcRow) (file_paths : List String) :
    List String × Nat × Nat :=
  let T1_df := passed_QC_group.filter (isType "ABCD-T1-NORM")
  let (fps1, has_t1) :=
    if T1_df.isEmpty then
      let T1b := passed_QC_group.filter (isType "ABCD-T1")
      if T1b.isEmpty then (file_paths, 0)
      else (file_paths ++ T1b.map QcRow.filename, T1b.length)
    else (file_paths ++ T1_df.map QcRow.filename, T1_df.length)
  let T2_df := passed_QC_group.filter (isType "ABCD-T2-NORM")
  let (fps2, has_t2) :=
    if T2_df.isEmpty then
      let T2b := passed_QC_group.filter (isType "ABCD-T2")
      if T2b.isEmpty then (fps1, 0)
      else (fps1 ++ T2b.map QcRow.filename, T2b.length)
    else (fps1 ++ T2_df.map QcRow.filename, T2_df.length)
  (fps2, has_t1, has_t2)

/-- The four functional series types whose presence activates
`add_func_paths` (the `isin` list at line 288). -/
def funcSeriesTypes : List String :=
  ["ABCD-rsfMRI", "ABCD-MID-fMRI", "ABCD-nBack-fMRI", "ABCD-SST-fMRI"]

/-- Embedding of `add_func_paths(all_group, passed_QC_group, file_paths)`
(s3_downloader_revised.py lines 286-357).  Activates only when a
functional series passes QC; resolves the field-map frame from passing
combined `ABCD-fMRI-FM` rows, else from AP/PA candidates of the full
(unfiltered) group via the pairing loop; when the resolved frame is empty
it returns counts `(0, 10000, 10000, 10000, 10000)` without touching the
path list, otherwise appends field-map paths and then the passing
rsfMRI/MID/SST/nBack paths with their row counts. -/
def add_func_paths (all_group passed_QC_group : List QcRow)
    (file_paths : List String) :
    List String × Nat × Nat × Nat × Nat × Nat :=
  if passed_QC_group.any (fun r => funcSeriesTypes.contains r.seriesType) then
    let FM0 := passed_QC_group.filter (isType "ABCD-fMRI-FM")
    let FM_df :=
      if FM0.isEmpty then
        let FM_AP_df := all_group.filter (isType "ABCD-fMRI-FM-AP")
        let FM_PA_df := all_group.filter (isType "ABCD-fMRI-FM-PA")
        if FM_AP_df.isEmpty then FM0
        else pairRows FM_AP_df FM_PA_df
      else FM0
    if FM_df.isEmpty then (file_paths, 0, 10000, 10000, 10000, 10000)
    else
      let fps1 := file_paths ++ FM_df.map QcRow.filename
      let RS_df := passed_QC_group.filter (isType "ABCD-rsfMRI")
      let (fps2, has_rsfmri) :=
        if RS_df.isEmpty then (fps1, 0)
        else (fps1 ++ RS_df.map QcRow.filename, RS_df.length)
      let MID_df := passed_QC_group.filter (isType "ABCD-MID-fMRI")
      let (fps3, has_mid) :=
        if MID_df.isEmpty then (fps2, 0)
        else (fps2 ++ MID_df.map QcRow.filename, MID_df.length)
      let SST_df := passed_QC_group.filter (isType "ABCD-SST-fMRI")
      let (fps4, has_sst) :=
        if SST_df.isEmpty then (fps3, 0)
        else (fps3 ++ SST_df.map QcRow.filename, SST_df.length)
      let nBack_df := passed_QC_group.filter (isType "ABCD-nBack-fMRI")
      let (fps5, has_nback) :=
        if nBack_df.isEmpty then (fps4, 0)
        else (fps4 ++ nBack_df.map QcRow.filename, nBack_df.length)
      (fps5, FM_df.length, has_rsfmri, has_mid, has_sst, has_nback)
  else (file_paths, 0, 0, 0, 0, 0)

/-- Embedding of `add_dwi_paths(all_group, passed_QC_group, file_paths)`
(s3_downloader_revised.py lines 360-394).  When at least one DTI row
passes QC: resolve the diffusion field-map frame from passing combined
`ABCD-Diffusion-FM` rows, else from AP/PA candidates of the full group —
returning `(file_paths, 0)` immediately when no AP candidate exists;
paths are appended only when the resolved frame is non-empty, and the
reported count is the passing-DTI row count. -/
def add_dwi_paths (all_group passed_QC_group : List QcRow)
    (file_paths : List String) : List String × Nat :=
  let DTI_df := passed_QC_group.filter (isType "ABCD-DTI")
  if 1 ≤ DTI_df.length then
    let DTI_FM0 := passed_QC_group.filter (isType "ABCD-Diffusion-FM")
    if DTI_FM0.isEmpty then
      let DTI_FM_AP_df := all_group.filter (isType "ABCD-Diffusion-FM-AP")
      let DTI_FM_PA_df := all_group.filter (isType "ABCD-Diffusion-FM-PA")
      if DTI_FM_AP_df.isEmpty then (file_paths, 0)
      else
        let DTI_FM_df := pairRows DTI_FM_AP_df DTI_FM_PA_df
        if DTI_FM_df.isEmpty then (file_paths, DTI_df.length)
        else
          (file_paths ++ DTI_df.map QcRow.filename
            ++ DTI_FM_df.map QcRow.filename, DTI_df.length)
    else
      (file_paths ++ DTI_df.map QcRow.filename
        ++ DTI_FM0.map QcRow.filename, DTI_df.length)
  else (file_paths, DTI_df.length)

/-- The eight presence counts of one manifest row, in the order they are
written by `writer.writerow` (s3_downloader_revised.py line 178). -/
structure Counts where
  has_t1 : Nat
  has_t2 : Nat
  has_sefm : Nat
  has_rsfmri : Nat
  has_mid : Nat
  has_sst : Nat
  has_nback : Nat
  has_dti : Nat
deriving DecidableEq

/-- The seven running global totals of `main`
(s3_downloader_revised.py lines 84-90). -/
structure Tallies where
  num_t1 : Nat
  num_t2 : Nat
  num_rsfmri : Nat
  num_mid : Nat
  num_sst : Nat
  num_nback : Nat
  num_dti : Nat
deriving DecidableEq

/-- Embedding of the tally-update block of `main`
(s3_downloader_revised.py lines 180-193): T1, T2 and DTI are tallied on
`!= 0` alone; the four functional counts on `!= 0 and != 10000`. -/
def updateTallies (t : Tallies) (c : Counts) : Tallies where
  num_t1 := if c.has_t1 != 0 then t.num_t1 + 1 else t.num_t1
  num_t2 := if c.has_t2 != 0 then t.num_t2 + 1 else t.num_t2
  num_rsfmri :=
    if c.has_rsfmri != 0 && c.has_rsfmri != 10000 then t.num_rsfmri + 1
    else t.num_rsfmri
  num_mid :=
    if c.has_mid != 0 && c.has_mid != 10000 then t.num_mid + 1 else t.num_mid
  num_sst :=
    if c.has_sst != 0 && c.has_sst != 10000 then t.num_sst + 1 else t.num_sst
  num_nback :=
    if c.has_nback != 0 && c.has_nback != 10000 then t.num_nback + 1
    else t.num_nback
  num_dti := if c.has_dti != 0 then t.num_dti + 1 else t.num_dti

/-- Embedding of the per-(subject, session) body of `main`
(s3_downloader_revised.py lines 148-178): filter the session slice by
`usable != 0.0`, start from an empty path list and all-zero counts, and
run the three selectors guarded by the requested modalities.  Returns the
accumulated path list and the manifest-row counts. -/
def processSession (modalities : List String) (sub_ses_df : List QcRow) :
    List String × Counts :=
  let sub_pass_QC_df := sub_ses_df.filter (fun r => r.usable != 0)
  let file_paths : List String := []
  let (fps1, has_t1, has_t2) :=
    if modalities.contains "anat" then add_anat_paths sub_pass_QC_df file_paths
    else (file_paths, 0, 0)
  let (fps2, has_sefm, has_rsfmri, has_mid, has_sst, has_nback) :=
    if modalities.contains "func" then
      add_func_paths sub_ses_df sub_pass_QC_df fps1
    else (fps1, 0, 0, 0, 0, 0)
  let (fps3, has_dti) :=
    if modalities.contains "dwi" then add_dwi_paths sub_ses_df sub_pass_QC_df fps2
    else (fps2, 0)
  (fps3, ⟨has_t1, has_t2, has_sefm, has_rsfmri, has_mid, has_sst,
    has_nback, has_dti⟩)

/-- One line of the missing-files log:
`f"{bids_id}; {bids_year}; {full_file_path}"`. -/
structure MissingItem where
  subject : String
  session : String
  path : String
deriving DecidableEq

/-- Embedding of the download loop of `main`
(s3_downloader_revised.py lines 203-240): each accumulated path is split
on `;`, each piece is resolved against the bucket, and a missing-file
entry is appended when the existence check (`s3cmd ls`, modelled by
`lsOk`) fails or the fetch (`s3cmd get`, modelled by `getOk`) fails.
Both collaborators are oracles: the engine only observes success or
failure. -/
def missingEntries (lsOk getOk : String → Bool) (s3_bucket bids_id bids_year :
    String) (file_paths : List String) : List MissingItem :=
  file_paths.flatMap (fun file_path =>
    (file_path.splitOn ";").filterMap (fun split_value =>
      let full_file_path := s3_bucket ++ "/" ++ split_value.trim
      if lsOk full_file_path then
        if getOk full_file_path then none
        else some ⟨bids_id, bids_year, full_file_path⟩
      else some ⟨bids_id, bids_year, full_file_path⟩))

/-! ## The spreadsheet normalizer (abcd2bids.py, `reformat_fastqc_spreadsheet`)

One cell of the `SeriesTime` column after the quote-stripping and
numeric-string coercion passes: either missing (`NaN`), a numeric value
(int, or float truncated by Python's `int()`), or a residual
non-numeric string. -/

/-- A raw `SeriesTime` cell. -/
inductive QcCell where
  | missing
  | num (n : Nat)
  | str (s : List Char)
deriving DecidableEq

/-- Fuel-based decimal rendering, the embedding of Python's `str()` on a
non-negative `int`.  The fuel argument only bounds the recursion; with
fuel above the value the digits are exact. -/
def decStrAux : Nat → Nat → List Char
  | 0, _ => []
  | fuel + 1, n =>
    if n < 10 then [Nat.digitChar n]
    else decStrAux fuel (n / 10) ++ [Nat.digitChar (n % 10)]

/-- Python's `str(n)` for a natural number. -/
def pyStrNat (n : Nat) : List Char := decStrAux (n + 1) n

/-- Python's `s.zfill(6)` on an unsigned digit string: left-pad with
`'0'` to width 6, leaving longer strings unchanged. -/
def zfill6 (s : List Char) : List Char :=
  List.replicate (6 - s.length) '0' ++ s

/-- Python's `str.isnumeric()` restricted to ASCII decimal digits, the
success condition of `int()` on the residual strings. -/
def isDigits (s : List Char) : Bool := !s.isEmpty && s.all Char.isDigit

/-- Decimal parse of a digit string, the embedding of Python's `int()`
on a string of digits. -/
def parseNat (s : List Char) : Nat :=
  s.foldl (fun a c => 10 * a + (c.toNat - '0'.toNat)) 0

/-- Embedding of the `SeriesTime` lambda of `reformat_fastqc_spreadsheet`
(abcd2bids.py lines 467-469):
`lambda x: str(int(x)).zfill(6) if pd.notna(x) else '000000'`.
A missing cell yields the `"000000"` sentinel; a numeric cell is rendered
and zero-padded; a non-numeric string makes `int(x)` raise `ValueError`,
modelled as `Except.error`. -/
def padSeriesTime (x : QcCell) : Except (List Char) (List Char) :=
  match x with
  | .missing => .ok (List.replicate 6 '0')
  | .num n => .ok (zfill6 (pyStrNat n))
  | .str s => if isDigits s then .ok (zfill6 (pyStrNat (parseNat s))) else .error s

/-- Embedding of `reformatted_data['SeriesTime'].apply(...)`: the lambda
is applied to every cell of the column, and an exception raised on any
cell propagates out of `apply`, aborting the whole reformatting run with
no output for any row. -/
def padAllSeriesTimes : List QcCell → Except (List Char) (List (List Char))
  | [] => .ok []
  | x :: xs =>
    match padSeriesTime x with
    | .error e => .error e
    | .ok t =>
      match padAllSeriesTimes xs with
      | .error e => .error e
      | .ok ts => .ok (t :: ts)

/-- Whether `int(x)` succeeds on a `SeriesTime` cell: always on missing
(`pd.notna` short-circuits first) and numeric cells, and on a residual
string only when it is made of digits. -/
def timeCoercible (x : QcCell) : Bool :=
  match x with
  | .missing => true
  | .num _ => true
  | .str s => isDigits s

/-- Whether the series-time value of a cell is below `10 ^ 6`, so that
its decimal rendering has at most 6 digits. -/
def timeSmall (x : QcCell) : Bool :=
  match x with
  | .missing => true
  | .num n => n < 1000000
  | .str s => parseNat s < 1000000

/-- Embedding of the `dicom_filename_ends_with` computation
(abcd2bids.py lines 472-474):
`(StudyDate.astype(str) + SeriesTime).astype(str).str.split('.').str[0]`.
`dateStr` is the `astype(str)` rendering of the `StudyDate` cell (an
int-typed date column renders as bare digits, a float-typed one renders
with a trailing `".0"`); the split keeps only the part before the first
`'.'` of the concatenation. -/
def dicomFilenameEndsWith (dateStr timeStr : List Char) : List Char :=
  (dateStr ++ timeStr).takeWhile (fun c => c != '.')

/-! ## Derived notions used to state the claims -/

/-- The rows the anatomical preference rule selects for one contrast:
all passing `-NORM` rows when any exist, else all passing plain rows. -/
def anatSel (normType plainType : String) (pass : List QcRow) : List QcRow :=
  let norm := pass.filter (isType normType)
  if norm.isEmpty then pass.filter (isType plainType) else norm

/-- Every series type the three selectors react to. -/
def relevantSeriesTypes : List String :=
  ["ABCD-T1-NORM", "ABCD-T1", "ABCD-T2-NORM", "ABCD-T2",
   "ABCD-rsfMRI", "ABCD-MID-fMRI", "ABCD-nBack-fMRI", "ABCD-SST-fMRI",
   "ABCD-fMRI-FM", "ABCD-fMRI-FM-AP", "ABCD-fMRI-FM-PA",
   "ABCD-DTI", "ABCD-Diffusion-FM", "ABCD-Diffusion-FM-AP",
   "ABCD-Diffusion-FM-PA"]

/-- Sample rows used by the concrete witnesses. -/
def rsRow : QcRow := ⟨ "ABCD-rsfMRI", 1, "func/ABCD-rsfMRI_run-1.dicom.tgz" ⟩

def t1nRow : QcRow := ⟨ "ABCD-T1-NORM", 1, "anat/ABCD-T1-NORM_run-1.dicom.tgz" ⟩

def t1Row : QcRow := ⟨ "ABCD-T1", 1, "anat/ABCD-T1_run-1.dicom.tgz" ⟩

def apRow : QcRow := ⟨ "ABCD-fMRI-FM-AP", 1, "fmap/ABCD-fMRI-FM-AP_run-1.dicom.tgz" ⟩

def paRow : QcRow := ⟨ "ABCD-fMRI-FM-PA", 1, "fmap/ABCD-fMRI-FM-PA_run-1.dicom.tgz" ⟩

def paRow0 : QcRow := ⟨ "ABCD-fMRI-FM-PA", 0, "fmap/ABCD-fMRI-FM-PA_run-2.dicom.tgz" ⟩

def dtiRow : QcRow := ⟨ "ABCD-DTI", 1, "dwi/ABCD-DTI_run-1.dicom.tgz" ⟩

def oldRow : QcRow := ⟨ "ABCD-RetiredSeries", 1, "misc/old.dicom.tgz" ⟩

def dtiFmRow : QcRow := ⟨ "ABCD-Diffusion-FM", 1, "fmap/ABCD-Diffusion-FM_run-1.dicom.tgz" ⟩

/-! ## Helper lemmas -/

theorem length_flatMap_pair (l : List (QcRow × QcRow)) :
    (l.flatMap fun p => [p.1, p.2]).length = 2 * l.length := by
  induction l with
  | nil => rfl
  | cons p l ih => simp [List.flatMap_cons, ih]; omega

theorem pairRows_length (ap pa : List QcRow) :
    (pairRows ap pa).length = 2 * (fmPairs ap pa).length :=
  length_flatMap_pair _

theorem fmPairs_length_le (ap pa : List QcRow) :
    (fmPairs ap pa).length ≤ min ap.length pa.length := by
  have h := List.length_filter_le
    (fun p : QcRow × QcRow => p.1.usable != 0 && p.2.usable != 0) (ap.zip pa)
  simpa [fmPairs, List.length_zip] using h

/-- The conditional-append step shared by the selectors is extensionally
an unconditional append: skipping the append of an empty frame and the
zero count agree with appending its (empty) filename list and taking its
length. -/
theorem appendStep (X : List QcRow) (fps : List String) :
    (if X.isEmpty then (fps, 0) else (fps ++ X.map QcRow.filename, X.length)) =
      (fps ++ X.map QcRow.filename, X.length) := by
  by_cases h : X = [] <;> simp [h]

theorem length_filter_add_length_filter_le {α : Type} (p q : α → Bool)
    (h : ∀ a, p a = true → q a = false) (l : List α) :
    (l.filter p).length + (l.filter q).length ≤ l.length := by
  induction l with
  | nil => simp
  | cons a l ih =>
    by_cases hp : p a = true
    · have hq := h a hp
      simp [List.filter_cons, hp, hq]
      omega
    · simp only [Bool.not_eq_true] at hp
      by_cases hq : q a = true <;> simp [List.filter_cons, hp, hq] <;> omega

theorem pairRows_length_le (ap pa : List QcRow) :
    (pairRows ap pa).length ≤ ap.length + pa.length := by
  rw [pairRows_length]
  have h := fmPairs_length_le ap pa
  have h1 := Nat.min_le_left ap.length pa.length
  have h2 := Nat.min_le_right ap.length pa.length
  omega

/-- Pairing two disjoint series-type filters of one slice selects at
most as many rows as the slice has. -/
theorem pairRows_filter_length_le (l : List QcRow) (t1 t2 : String)
    (hne : t1 ≠ t2) :
    (pairRows (l.filter (isType t1)) (l.filter (isType t2))).length ≤
      l.length := by
  have hd : ∀ a : QcRow, isType t1 a = true → isType t2 a = false := by
    intro a h1
    simp only [isType, beq_iff_eq] at h1
    simp only [isType]
    rw [h1]
    exact beq_eq_false_iff_ne.mpr hne
  have hb := length_filter_add_length_filter_le (isType t1) (isType t2) hd l
  have hp := pairRows_length_le (l.filter (isType t1)) (l.filter (isType t2))
  omega

/-- `add_anat_paths` computed in closed form: it appends the filenames
of the preferred T1 selection and then of the preferred T2 selection,
and reports the two selection sizes. -/
theorem add_anat_paths_eq (passed_QC_group : List QcRow)
    (file_paths : List String) :
    add_anat_paths passed_QC_group file_paths =
      (file_paths
        ++ (anatSel "ABCD-T1-NORM" "ABCD-T1" passed_QC_group).map QcRow.filename
        ++ (anatSel "ABCD-T2-NORM" "ABCD-T2" passed_QC_group).map QcRow.filename,
       (anatSel "ABCD-T1-NORM" "ABCD-T1" passed_QC_group).length,
       (anatSel "ABCD-T2-NORM" "ABCD-T2" passed_QC_group).length) := by
  by_cases h1 : passed_QC_group.filter (isType "ABCD-T1-NORM") = [] <;>
  by_cases h1b : passed_QC_group.filter (isType "ABCD-T1") = [] <;>
  by_cases h2 : passed_QC_group.filter (isType "ABCD-T2-NORM") = [] <;>
  by_cases h2b : passed_QC_group.filter (isType "ABCD-T2") = [] <;>
  simp [add_anat_paths, anatSel, h1, h1b, h2, h2b]

theorem anatSel_length_le (normType plainType : String)
    (pass : List QcRow) :
    (anatSel normType plainType pass).length ≤ pass.length := by
  unfold anatSel
  dsimp only
  split
  · exact List.length_filter_le _ _
  · exact List.length_filter_le _ _

/-! ## Claims -/

/-- C1: for every (subject, session) where at least one of rsfMRI,
MID-fMRI, SST-fMRI, nBack-fMRI has a row in the QC-passing subset, but no
combined fMRI-FM row passes QC and either no fMRI-FM-AP candidates exist
in the full (unfiltered) subset or no AP/PA pair with both members usable
can be formed, the functional selector returns SEFM count 0 and the four
counts for rsfMRI, MID, SST and nBack all equal to the sentinel 10000
(not 0). -/
theorem C1_functional_sentinel (all_group passed_QC_group : List QcRow)
    (file_paths : List String)
    (hpass : passed_QC_group = all_group.filter (fun r => r.usable != 0))
    (hfunc : passed_QC_group.any
      (fun r => funcSeriesTypes.contains r.seriesType) = true)
    (hfm : passed_QC_group.filter (isType "ABCD-fMRI-FM") = [])
    (hnopair : all_group.filter (isType "ABCD-fMRI-FM-AP") = [] ∨
      fmPairs (all_group.filter (isType "ABCD-fMRI-FM-AP"))
        (all_group.filter (isType "ABCD-fMRI-FM-PA")) = []) :
    add_func_paths all_group passed_QC_group file_paths =
      (file_paths, 0, 10000, 10000, 10000, 10000) := by
  unfold add_func_paths
  rw [if_pos hfunc]
  rcases hnopair with hap | hpair
  · simp [hfm, hap]
  · by_cases hap : all_group.filter (isType "ABCD-fMRI-FM-AP") = []
    · simp [hfm, hap]
    · simp [hfm, hap, pairRows, hpair]

/-- Witness for C1: a session with one usable rsfMRI row and no field-map
rows at all hits the sentinel branch. -/
theorem C1_functional_sentinel_witness :
    add_func_paths [rsRow] [rsRow] [] = ([], 0, 10000, 10000, 10000, 10000) :=
  C1_functional_sentinel [rsRow] [rsRow] [] (by decide) (by decide) (by decide)
    (Or.inl (by decide))

/-- C3: for every QC-passing catalog slice of one (subject, session): if
any T1-NORM rows are present, the anatomical selector selects exactly all
T1-NORM rows (T1 count = number of T1-NORM rows) and selects zero
plain-T1 rows even when plain-T1 rows also pass QC; otherwise it selects
all passing plain-T1 rows; the same rule holds independently for
T2/T2-NORM. -/
theorem C3_anat_norm_preference (passed_QC_group : List QcRow)
    (file_paths : List String) :
    add_anat_paths passed_QC_group file_paths =
      (file_paths
        ++ (anatSel "ABCD-T1-NORM" "ABCD-T1" passed_QC_group).map QcRow.filename
        ++ (anatSel "ABCD-T2-NORM" "ABCD-T2" passed_QC_group).map QcRow.filename,
       (anatSel "ABCD-T1-NORM" "ABCD-T1" passed_QC_group).length,
       (anatSel "ABCD-T2-NORM" "ABCD-T2" passed_QC_group).length) ∧
    (passed_QC_group.filter (isType "ABCD-T1-NORM") ≠ [] →
      anatSel "ABCD-T1-NORM" "ABCD-T1" passed_QC_group =
        passed_QC_group.filter (isType "ABCD-T1-NORM") ∧
      (anatSel "ABCD-T1-NORM" "ABCD-T1" passed_QC_group).filter
        (isType "ABCD-T1") = []) ∧
    (passed_QC_group.filter (isType "ABCD-T1-NORM") = [] →
      anatSel "ABCD-T1-NORM" "ABCD-T1" passed_QC_group =
        passed_QC_group.filter (isType "ABCD-T1")) ∧
    (passed_QC_group.filter (isType "ABCD-T2-NORM") ≠ [] →
      anatSel "ABCD-T2-NORM" "ABCD-T2" passed_QC_group =
        passed_QC_group.filter (isType "ABCD-T2-NORM") ∧
      (anatSel "ABCD-T2-NORM" "ABCD-T2" passed_QC_group).filter
        (isType "ABCD-T2") = []) ∧
    (passed_QC_group.filter (isType "ABCD-T2-NORM") = [] →
      anatSel "ABCD-T2-NORM" "ABCD-T2" passed_QC_group =
        passed_QC_group.filter (isType "ABCD-T2")) := by
  refine ⟨add_anat_paths_eq passed_QC_group file_paths, ?_, ?_, ?_, ?_⟩
  · intro h
    have hsel : anatSel "ABCD-T1-NORM" "ABCD-T1" passed_QC_group =
        passed_QC_group.filter (isType "ABCD-T1-NORM") := by
      simp [anatSel, h]
    refine ⟨hsel, ?_⟩
    rw [hsel, List.filter_eq_nil_iff]
    intro a ha
    have h2 := (List.mem_filter.mp ha).2
    simp only [isType, beq_iff_eq] at h2 ⊢
    rw [h2]
    decide
  · intro h; simp [anatSel, h]
  · intro h
    have hsel : anatSel "ABCD-T2-NORM" "ABCD-T2" passed_QC_group =
        passed_QC_group.filter (isType "ABCD-T2-NORM") := by
      simp [anatSel, h]
    refine ⟨hsel, ?_⟩
    rw [hsel, List.filter_eq_nil_iff]
    intro a ha
    have h2 := (List.mem_filter.mp ha).2
    simp only [isType, beq_iff_eq] at h2 ⊢
    rw [h2]
    decide
  · intro h; simp [anatSel, h]

/-- Witness for C3: with one usable T1-NORM and one usable plain T1 row,
the selector takes only the NORM row, with count 1. -/
theorem C3_anat_norm_preference_witness :
    add_anat_paths [t1nRow, t1Row] [] =
      ([ "anat/ABCD-T1-NORM_run-1.dicom.tgz" ], 1, 0) ∧
    anatSel "ABCD-T1-NORM" "ABCD-T1" [t1nRow, t1Row] = [t1nRow] := by
  have h := (C3_anat_norm_preference [t1nRow, t1Row] []).1
  constructor
  · rw [h]; decide
  · decide

/-- C4: for every full (unfiltered) slice containing directional fMRI
field-map candidates, the pairing step evaluates exactly the index pairs
(AP[i], PA[i]) for i from 0 to min(count(AP), count(PA)) - 1 — candidates
beyond the smaller count are never considered — and a pair is included in
the selected SEFM set if and only if both AP[i] and PA[i] have usability
flag not equal to 0. -/
theorem C4_pairing_index (ap pa : List QcRow) (a b : QcRow) :
    (a, b) ∈ fmPairs ap pa ↔
      ∃ i : Nat, i < min ap.length pa.length ∧ ap[i]? = some a ∧
        pa[i]? = some b ∧ a.usable ≠ 0 ∧ b.usable ≠ 0 := by
  unfold fmPairs
  rw [List.mem_filter]
  constructor
  · rintro ⟨hz, hcond⟩
    simp only [bne_iff_ne, ne_eq, Bool.and_eq_true, decide_eq_true_eq] at hcond
    obtain ⟨i, hi⟩ := List.mem_iff_getElem?.mp hz
    rw [List.getElem?_zip_eq_some] at hi
    obtain ⟨ha, hb⟩ := hi
    obtain ⟨hia, -⟩ := List.getElem?_eq_some_iff.mp ha
    obtain ⟨hib, -⟩ := List.getElem?_eq_some_iff.mp hb
    exact ⟨i, lt_min hia hib, ha, hb, hcond.1, hcond.2⟩
  · rintro ⟨i, -, ha, hb, hua, hub⟩
    refine ⟨List.mem_iff_getElem?.mpr ⟨i, List.getElem?_zip_eq_some.mpr ⟨ha, hb⟩⟩, ?_⟩
    simp [hua, hub]

/-- Witness for C4: with one AP candidate and two PA candidates, the
pair at index 0 is included; the theorem's index bound instantiates to
min 1 2 = 1. -/
theorem C4_pairing_index_witness :
    (apRow, paRow) ∈ fmPairs [apRow] [paRow, paRow0] :=
  (C4_pairing_index [apRow] [paRow, paRow0] apRow paRow).mpr
    ⟨0, by decide, by decide, by decide, by decide, by decide⟩

/-- Counterexample to C2 as stated: a session whose only row is one
passing DTI row (so one passing DTI row exists, no combined diffusion
field map and no AP candidates).  The selector returns DTI count 0, not
the passing-DTI row count 1. -/
theorem C2_counterexample :
    add_dwi_paths [dtiRow] [dtiRow] [] = ([], 0) ∧
    ([dtiRow].filter (isType "ABCD-DTI")).length = 1 := by decide

/-- C2 (amended): for every (subject, session) with at least one passing
DTI row: when no combined diffusion field map passes QC and no
Diffusion-FM-AP candidates exist in the full subset, the selector
returns DTI count 0 (not the passing-DTI row count) and adds no paths;
in every other case the DTI count equals the number of passing DTI rows;
and whenever no usable AP/PA pair can be formed, no diffusion paths are
added to the selection (no sentinel is used). -/
theorem C2_dwi_count (all_group passed_QC_group : List QcRow)
    (file_paths : List String)
    (hdti : 1 ≤ (passed_QC_group.filter (isType "ABCD-DTI")).length) :
    (passed_QC_group.filter (isType "ABCD-Diffusion-FM") = [] →
      all_group.filter (isType "ABCD-Diffusion-FM-AP") = [] →
      add_dwi_paths all_group passed_QC_group file_paths = (file_paths, 0)) ∧
    (passed_QC_group.filter (isType "ABCD-Diffusion-FM") ≠ [] ∨
      all_group.filter (isType "ABCD-Diffusion-FM-AP") ≠ [] →
      (add_dwi_paths all_group passed_QC_group file_paths).2 =
        (passed_QC_group.filter (isType "ABCD-DTI")).length) ∧
    (passed_QC_group.filter (isType "ABCD-Diffusion-FM") = [] →
      fmPairs (all_group.filter (isType "ABCD-Diffusion-FM-AP"))
        (all_group.filter (isType "ABCD-Diffusion-FM-PA")) = [] →
      (add_dwi_paths all_group passed_QC_group file_paths).1 = file_paths) := by
  unfold add_dwi_paths
  rw [if_pos hdti]
  refine ⟨?_, ?_, ?_⟩
  · intro hfm hap
    simp [hfm, hap]
  · intro h
    by_cases hfm : passed_QC_group.filter (isType "ABCD-Diffusion-FM") = []
    · have hap : all_group.filter (isType "ABCD-Diffusion-FM-AP") ≠ [] := by
        rcases h with h | h
        · exact absurd hfm h
        · exact h
      by_cases hp : pairRows (all_group.filter (isType "ABCD-Diffusion-FM-AP"))
          (all_group.filter (isType "ABCD-Diffusion-FM-PA")) = []
      · simp [hfm, hap, hp]
      · simp [hfm, hap, hp]
    · simp [hfm]
  · intro hfm hp
    by_cases hap : all_group.filter (isType "ABCD-Diffusion-FM-AP") = []
    · simp [hfm, hap]
    · simp [hfm, hap, pairRows, hp]

/-- Witness for C2 (amended): with a passing DTI row and a passing
combined diffusion field map, the DTI count equals the passing-DTI row
count 1. -/
theorem C2_dwi_count_witness :
    (add_dwi_paths [dtiRow, dtiFmRow] [dtiRow, dtiFmRow] []).2 =
      ([dtiRow, dtiFmRow].filter (isType "ABCD-DTI")).length :=
  (C2_dwi_count [dtiRow, dtiFmRow] [dtiRow, dtiFmRow] [] (by decide)).2.1
    (Or.inl (by decide))

/-- C9: every modality selector (anatomical, functional, diffusion) only
appends to the accumulated file-path list: for every input list, the
returned list has the input list as a prefix, with previously
accumulated paths never removed, reordered or modified. -/
theorem C9_selectors_append_only (all_group passed_QC_group : List QcRow)
    (file_paths : List String) :
    (∃ t, (add_anat_paths passed_QC_group file_paths).1 = file_paths ++ t) ∧
    (∃ t, (add_func_paths all_group passed_QC_group file_paths).1 =
      file_paths ++ t) ∧
    (∃ t, (add_dwi_paths all_group passed_QC_group file_paths).1 =
      file_paths ++ t) := by
  refine ⟨?_, ?_, ?_⟩
  · unfold add_anat_paths
    by_cases h1 : passed_QC_group.filter (isType "ABCD-T1-NORM") = [] <;>
    by_cases h1b : passed_QC_group.filter (isType "ABCD-T1") = [] <;>
    by_cases h2 : passed_QC_group.filter (isType "ABCD-T2-NORM") = [] <;>
    by_cases h2b : passed_QC_group.filter (isType "ABCD-T2") = [] <;>
    simp [h1, h1b, h2, h2b]
  · unfold add_func_paths
    by_cases hact : (passed_QC_group.any
        fun r => funcSeriesTypes.contains r.seriesType) = true
    · rw [if_pos hact]
      simp only [appendStep]
      by_cases hfm0 : passed_QC_group.filter (isType "ABCD-fMRI-FM") = [] <;>
      by_cases hap : all_group.filter (isType "ABCD-fMRI-FM-AP") = [] <;>
      by_cases hpr : pairRows (all_group.filter (isType "ABCD-fMRI-FM-AP"))
          (all_group.filter (isType "ABCD-fMRI-FM-PA")) = [] <;>
      simp [hfm0, hap, hpr]
    · rw [if_neg hact]
      exact ⟨[], by simp⟩
  · unfold add_dwi_paths
    dsimp only
    split
    · split
      · split
        · exact ⟨[], by simp⟩
        · split
          · exact ⟨[], by simp⟩
          · simp only [List.append_assoc]; exact ⟨_, rfl⟩
      · simp only [List.append_assoc]; exact ⟨_, rfl⟩
    · exact ⟨[], by simp⟩

/-- C8: for every (subject, session) whose catalog slice contains no
anatomical, functional or diffusion QC rows at all, a manifest row is
still produced with all eight presence counts equal to 0, the selected
path list is empty, and no missing-item entries are generated for that
session. -/
theorem C8_no_relevant_rows (modalities : List String)
    (sub_ses_df : List QcRow) (lsOk getOk : String → Bool)
    (s3_bucket bids_id bids_year : String)
    (h : ∀ r ∈ sub_ses_df, r.seriesType ∉ relevantSeriesTypes) :
    processSession modalities sub_ses_df = ([], ⟨0, 0, 0, 0, 0, 0, 0, 0⟩) ∧
    missingEntries lsOk getOk s3_bucket bids_id bids_year
      (processSession modalities sub_ses_df).1 = [] := by
  have hpassmem : ∀ r ∈ sub_ses_df.filter (fun r => r.usable != 0),
      r.seriesType ∉ relevantSeriesTypes :=
    fun r hr => h r (List.mem_filter.mp hr).1
  have hfil : ∀ t ∈ relevantSeriesTypes,
      (sub_ses_df.filter (fun r => r.usable != 0)).filter (isType t) = [] := by
    intro t ht
    rw [List.filter_eq_nil_iff]
    intro r hr hrt
    apply hpassmem r hr
    have : r.seriesType = t := by simpa [isType] using hrt
    rwa [this]
  have hany : ((sub_ses_df.filter (fun r => r.usable != 0)).any
      fun r => funcSeriesTypes.contains r.seriesType) = false := by
    rw [List.any_eq_false]
    intro r hr hc
    have hmem : r.seriesType ∈ funcSeriesTypes := by simpa using hc
    apply hpassmem r hr
    have hsub : ∀ s ∈ funcSeriesTypes, s ∈ relevantSeriesTypes := by decide
    exact hsub _ hmem
  have hanat : add_anat_paths (sub_ses_df.filter (fun r => r.usable != 0)) [] =
      ([], 0, 0) := by
    simp [add_anat_paths, hfil "ABCD-T1-NORM" (by decide),
      hfil "ABCD-T1" (by decide), hfil "ABCD-T2-NORM" (by decide),
      hfil "ABCD-T2" (by decide)]
  have hfunc : ∀ fps, add_func_paths sub_ses_df
      (sub_ses_df.filter (fun r => r.usable != 0)) fps =
      (fps, 0, 0, 0, 0, 0) := by
    intro fps
    unfold add_func_paths
    rw [if_neg (by rw [hany]; simp)]
  have hdwi : ∀ fps, add_dwi_paths sub_ses_df
      (sub_ses_df.filter (fun r => r.usable != 0)) fps = (fps, 0) := by
    intro fps
    unfold add_dwi_paths
    rw [hfil "ABCD-DTI" (by decide)]
    simp
  have hmain : processSession modalities sub_ses_df =
      ([], ⟨0, 0, 0, 0, 0, 0, 0, 0⟩) := by
    unfold processSession
    by_cases ha : modalities.contains "anat" <;>
    by_cases hf : modalities.contains "func" <;>
    by_cases hd : modalities.contains "dwi" <;>
    simp [ha, hf, hd, hanat, hfunc, hdwi]
  refine ⟨hmain, ?_⟩
  rw [hmain]
  rfl

/-- Witness for C8: a slice holding a single usable row of a retired
series type yields the all-zero manifest row, no selected paths and no
missing-item entries. -/
theorem C8_no_relevant_rows_witness :
    processSession ["anat", "func", "dwi"] [oldRow] =
      ([], ⟨0, 0, 0, 0, 0, 0, 0, 0⟩) ∧
    missingEntries (fun _ => false) (fun _ => false) "bucket" "sub-X" "00A"
      (processSession ["anat", "func", "dwi"] [oldRow]).1 = [] :=
  C8_no_relevant_rows ["anat", "func", "dwi"] [oldRow]
    (fun _ => false) (fun _ => false) "bucket" "sub-X" "00A" (by decide)

/-- A session slice of `n` usable T1-NORM rows yields a manifest row
with T1 presence count `n`: presence counts are genuine row counts, so
with 10000 rows the count is the literal value 10000. -/
theorem processSession_replicate_t1n (n : Nat) (hn : 0 < n) :
    (processSession ["anat"] (List.replicate n t1nRow)).2 =
      ⟨n, 0, 0, 0, 0, 0, 0, 0⟩ := by
  have hfil1 : (List.replicate n t1nRow).filter (fun r => r.usable != 0) =
      List.replicate n t1nRow := List.filter_replicate_of_pos (by decide)
  have hfil2 : (List.replicate n t1nRow).filter (isType "ABCD-T1-NORM") =
      List.replicate n t1nRow := List.filter_replicate_of_pos (by decide)
  have hfil3 : (List.replicate n t1nRow).filter (isType "ABCD-T2-NORM") =
      ([] : List QcRow) := List.filter_replicate_of_neg (by decide)
  have hfil4 : (List.replicate n t1nRow).filter (isType "ABCD-T2") =
      ([] : List QcRow) := List.filter_replicate_of_neg (by decide)
  have hne : List.replicate n t1nRow ≠ [] := by
    intro h
    have := congrArg List.length h
    simp at this
    omega
  have hn0 : n ≠ 0 := by omega
  unfold processSession add_anat_paths
  simp only [hfil1, hfil2, hfil3, hfil4]
  simp [hne, hn0]

/-- Counterexample to C7 as stated: a manifest row whose T1 presence
count is the value 10000 — produced by a session slice of 10000 passing
T1-NORM rows — still increments the running T1 total, because `main`
tests only `has_t1 != 0` for T1 (and likewise T2, DTI), never
`has_t1 != 10000`.  So "incremented iff the count is neither 0 nor
10000" fails for the T1 total. -/
theorem C7_counterexample :
    (processSession ["anat"] (List.replicate 10000 t1nRow)).2.has_t1 = 10000 ∧
    (updateTallies ⟨0, 0, 0, 0, 0, 0, 0⟩
      (processSession ["anat"] (List.replicate 10000 t1nRow)).2).num_t1 = 1 := by
  have hses := processSession_replicate_t1n 10000 (by norm_num)
  rw [hses]
  exact ⟨rfl, rfl⟩

/-- C7 (amended): for every manifest row, each of the four functional
totals (rsfMRI, MID, SST, nBack) is incremented if and only if the
corresponding presence count is neither 0 nor the sentinel 10000, while
the T1, T2 and DTI totals are incremented if and only if the
corresponding count is nonzero — the sentinel test is applied only to
the four functional totals. -/
theorem C7_tally_update (t : Tallies) (c : Counts) :
    ((updateTallies t c).num_t1 = t.num_t1 + 1 ↔ c.has_t1 ≠ 0) ∧
    ((updateTallies t c).num_t2 = t.num_t2 + 1 ↔ c.has_t2 ≠ 0) ∧
    ((updateTallies t c).num_rsfmri = t.num_rsfmri + 1 ↔
      c.has_rsfmri ≠ 0 ∧ c.has_rsfmri ≠ 10000) ∧
    ((updateTallies t c).num_mid = t.num_mid + 1 ↔
      c.has_mid ≠ 0 ∧ c.has_mid ≠ 10000) ∧
    ((updateTallies t c).num_sst = t.num_sst + 1 ↔
      c.has_sst ≠ 0 ∧ c.has_sst ≠ 10000) ∧
    ((updateTallies t c).num_nback = t.num_nback + 1 ↔
      c.has_nback ≠ 0 ∧ c.has_nback ≠ 10000) ∧
    ((updateTallies t c).num_dti = t.num_dti + 1 ↔ c.has_dti ≠ 0) := by
  unfold updateTallies
  refine ⟨?_, ?_, ?_, ?_, ?_, ?_, ?_⟩ <;>
  · dsimp only
    split <;> rename_i hcond <;> simp_all

/-- Witness for C7 (amended): a row with rsfMRI count 2 increments the
rsfMRI total of the zero tallies to 1. -/
theorem C7_tally_update_witness :
    (updateTallies ⟨0, 0, 0, 0, 0, 0, 0⟩
      ⟨1, 0, 2, 2, 0, 0, 10000, 0⟩).num_rsfmri = 0 + 1 :=
  (C7_tally_update ⟨0, 0, 0, 0, 0, 0, 0⟩ ⟨1, 0, 2, 2, 0, 0, 10000, 0⟩).2.2.1.mpr
    ⟨by decide, by decide⟩

/-- C10: for every (subject, session) slice of realistic size (fewer
than 10000 rows), the T1, T2, SEFM and DTI presence counts are genuine
row counts bounded by the slice size and therefore never equal the
sentinel value 10000 — so the sentinel can appear only in the four
functional counts, and the accumulator's unconditional non-zero test for
the T1, T2 and DTI tallies never counts a sentinel. -/
theorem C10_sentinel_only_functional (all_group passed_QC_group : List QcRow)
    (file_paths : List String)
    (hpassN : passed_QC_group.length < 10000)
    (hallN : all_group.length < 10000) :
    (add_anat_paths passed_QC_group file_paths).2.1 ≤
      passed_QC_group.length ∧
    (add_anat_paths passed_QC_group file_paths).2.2 ≤
      passed_QC_group.length ∧
    (add_func_paths all_group passed_QC_group file_paths).2.1 ≤
      max passed_QC_group.length all_group.length ∧
    (add_dwi_paths all_group passed_QC_group file_paths).2 ≤
      passed_QC_group.length ∧
    (add_anat_paths passed_QC_group file_paths).2.1 ≠ 10000 ∧
    (add_anat_paths passed_QC_group file_paths).2.2 ≠ 10000 ∧
    (add_func_paths all_group passed_QC_group file_paths).2.1 ≠ 10000 ∧
    (add_dwi_paths all_group passed_QC_group file_paths).2 ≠ 10000 := by
  have ha1 : (add_anat_paths passed_QC_group file_paths).2.1 ≤
      passed_QC_group.length := by
    rw [add_anat_paths_eq]
    exact anatSel_length_le _ _ _
  have ha2 : (add_anat_paths passed_QC_group file_paths).2.2 ≤
      passed_QC_group.length := by
    rw [add_anat_paths_eq]
    exact anatSel_length_le _ _ _
  have hf : (add_func_paths all_group passed_QC_group file_paths).2.1 ≤
      max passed_QC_group.length all_group.length := by
    unfold add_func_paths
    by_cases hact : (passed_QC_group.any
        fun r => funcSeriesTypes.contains r.seriesType) = true
    · rw [if_pos hact]
      simp only [appendStep]
      by_cases hfm0 : passed_QC_group.filter (isType "ABCD-fMRI-FM") = [] <;>
      by_cases hap : all_group.filter (isType "ABCD-fMRI-FM-AP") = [] <;>
      by_cases hpr : pairRows (all_group.filter (isType "ABCD-fMRI-FM-AP"))
          (all_group.filter (isType "ABCD-fMRI-FM-PA")) = [] <;>
      simp [hfm0, hap, hpr] <;>
      first
        | exact Or.inl (List.length_filter_le _ _)
        | exact Or.inr (pairRows_filter_length_le all_group "ABCD-fMRI-FM-AP"
            "ABCD-fMRI-FM-PA" (by decide))
    · rw [if_neg hact]
      simp
  have hd : (add_dwi_paths all_group passed_QC_group file_paths).2 ≤
      passed_QC_group.length := by
    unfold add_dwi_paths
    dsimp only
    split
    · split
      · split
        · simp
        · split <;> exact List.length_filter_le _ _
      · exact List.length_filter_le _ _
    · exact List.length_filter_le _ _
  have hmax : max passed_QC_group.length all_group.length < 10000 :=
    Nat.max_lt.mpr ⟨hpassN, hallN⟩
  exact ⟨ha1, ha2, hf, hd, by omega, by omega, by omega, by omega⟩

/-- Witness for C10: a small mixed slice has all four non-functional
counts below the slice sizes, none equal to the sentinel. -/
theorem C10_sentinel_only_functional_witness :
    (add_anat_paths [t1nRow, rsRow, dtiRow] []).2.1 ≠ 10000 ∧
    (add_dwi_paths [t1nRow, rsRow, dtiRow] [t1nRow, rsRow, dtiRow] []).2 ≠
      10000 := by
  have h := C10_sentinel_only_functional [t1nRow, rsRow, dtiRow]
    [t1nRow, rsRow, dtiRow] [] (by decide) (by decide)
  exact ⟨h.2.2.2.2.1, h.2.2.2.2.2.2.2⟩

/-! ## Normalizer lemmas (decimal rendering and padding) -/

theorem decStrAux_digits (fuel : Nat) :
    ∀ (n : Nat), ∀ c ∈ decStrAux fuel n, c.isDigit = true := by
  have hdc : ∀ m, m < 10 → (Nat.digitChar m).isDigit = true := by decide
  induction fuel with
  | zero =>
    intro n c hc
    cases hc
  | succ f ih =>
    intro n c hc
    unfold decStrAux at hc
    by_cases h : n < 10
    · rw [if_pos h] at hc
      rw [List.mem_singleton.mp hc]
      exact hdc n h
    · rw [if_neg h] at hc
      rcases List.mem_append.mp hc with h1 | h2
      · exact ih (n / 10) c h1
      · rw [List.mem_singleton.mp h2]
        exact hdc (n % 10) (Nat.mod_lt n (by norm_num))

theorem decStrAux_length_le (fuel : Nat) :
    ∀ (n k : Nat), n < fuel → 0 < k → n < 10 ^ k →
      (decStrAux fuel n).length ≤ k := by
  induction fuel with
  | zero =>
    intro n k h
    omega
  | succ f ih =>
    intro n k hfuel hk hnk
    unfold decStrAux
    by_cases h : n < 10
    · rw [if_pos h]
      simpa using hk
    · rw [if_neg h]
      push_neg at h
      have hk1 : 1 < k := by
        by_contra hle
        have hke : k = 1 := by omega
        rw [hke, pow_one] at hnk
        omega
      have hdiv : n / 10 < f := by
        have h1 : n / 10 < n := Nat.div_lt_self (by omega) (by norm_num)
        omega
      have hdivk : n / 10 < 10 ^ (k - 1) := by
        rw [Nat.div_lt_iff_lt_mul (by norm_num : 0 < 10)]
        calc n < 10 ^ k := hnk
          _ = 10 ^ (k - 1) * 10 := by
            rw [← pow_succ]
            congr 1
            omega
      have hlen := ih (n / 10) (k - 1) hdiv (by omega) hdivk
      simp only [List.length_append, List.length_singleton]
      omega

theorem pyStrNat_length_le (n : Nat) (h : n < 1000000) :
    (pyStrNat n).length ≤ 6 :=
  decStrAux_length_le (n + 1) n 6 (Nat.lt_succ_self n) (by norm_num)
    (by norm_num [h])

theorem pyStrNat_digits (n : Nat) : ∀ c ∈ pyStrNat n, c.isDigit = true :=
  decStrAux_digits (n + 1) n

theorem zfill6_length (s : List Char) (h : s.length ≤ 6) :
    (zfill6 s).length = 6 := by
  simp only [zfill6, List.length_append, List.length_replicate]
  omega

theorem zfill6_digits (s : List Char) (h : ∀ c ∈ s, c.isDigit = true) :
    ∀ c ∈ zfill6 s, c.isDigit = true := by
  intro c hc
  rcases List.mem_append.mp hc with h1 | h2
  · rw [List.eq_of_mem_replicate h1]
    decide
  · exact h c h2

/-- Every series-time string the padding step can produce is exactly 6
decimal digits, provided the underlying time value is below `10 ^ 6`. -/
theorem padSeriesTime_ok_shape (x : QcCell) (ts : List Char)
    (hok : padSeriesTime x = Except.ok ts) (hsmall : timeSmall x = true) :
    ts.length = 6 ∧ ∀ c ∈ ts, c.isDigit = true := by
  cases x with
  | missing =>
    have hts : ts = List.replicate 6 '0' := by
      simpa [padSeriesTime] using hok.symm
    subst hts
    refine ⟨by simp, ?_⟩
    intro c hc
    rw [List.eq_of_mem_replicate hc]
    decide
  | num n =>
    have hts : ts = zfill6 (pyStrNat n) := by
      simpa [padSeriesTime] using hok.symm
    have hn : n < 1000000 := by
      simpa [timeSmall] using hsmall
    subst hts
    exact ⟨zfill6_length _ (pyStrNat_length_le n hn),
      zfill6_digits _ (pyStrNat_digits n)⟩
  | str s =>
    by_cases hdig : isDigits s = true
    · have hts : ts = zfill6 (pyStrNat (parseNat s)) := by
        simpa [padSeriesTime, hdig] using hok.symm
      have hn : parseNat s < 1000000 := by
        simpa [timeSmall] using hsmall
      subst hts
      exact ⟨zfill6_length _ (pyStrNat_length_le _ hn),
        zfill6_digits _ (pyStrNat_digits _)⟩
    · exfalso
      simp [padSeriesTime, hdig] at hok

/-- Counterexample to C5 as stated: a `SeriesTime` column holding a
well-formed row, a row whose time is a non-numeric string, and another
well-formed row.  The normalizer does not drop the bad row and continue:
`int()` raises, the exception propagates out of `apply`, and the whole
run aborts with no output for any row. -/
theorem C5_counterexample :
    padAllSeriesTimes [QcCell.num 120000, QcCell.str ['n', 'o', 'o', 'n'],
        QcCell.num 130000] =
      Except.error ['n', 'o', 'o', 'n'] ∧
    (match padAllSeriesTimes [QcCell.num 120000,
        QcCell.str ['n', 'o', 'o', 'n'], QcCell.num 130000] with
      | Except.ok _ => False
      | Except.error _ => True) :=
  ⟨rfl, trivial⟩

/-- C5 (amended): if a row's series time is missing (NaN) the normalizer
substitutes the sentinel "000000"; but if a non-missing series time
cannot be coerced to an integer, the normalizer raises an unhandled
`ValueError` that is fatal to the whole run — the row is not dropped,
no count is reported and no output is produced for any row.  There is
no `MalformedRowError` in the code. -/
theorem C5_time_uncoercible_fatal (cells : List QcCell) (x : QcCell)
    (hx : x ∈ cells) (hbad : timeCoercible x = false) :
    (∃ e, padAllSeriesTimes cells = Except.error e) ∧
    padSeriesTime QcCell.missing = Except.ok (List.replicate 6 '0') := by
  refine ⟨?_, rfl⟩
  induction cells with
  | nil => cases hx
  | cons c cs ih =>
    rcases List.mem_cons.mp hx with hxc | hmem
    · rw [hxc] at hbad
      cases c with
      | missing => exact absurd hbad (by decide)
      | num n => simp [timeCoercible] at hbad
      | str s =>
        have hdig : isDigits s = false := hbad
        refine ⟨s, ?_⟩
        unfold padAllSeriesTimes
        simp [padSeriesTime, hdig]
    · obtain ⟨e, he⟩ := ih hmem
      cases hps : padSeriesTime c with
      | error e2 =>
        refine ⟨e2, ?_⟩
        unfold padAllSeriesTimes
        rw [hps]
      | ok t =>
        refine ⟨e, ?_⟩
        unfold padAllSeriesTimes
        rw [hps, he]

/-- Witness for C5 (amended): applied to a concrete column with one
uncoercible cell; the run output is the error, not a shortened row
list. -/
theorem C5_time_uncoercible_fatal_witness :
    padAllSeriesTimes [QcCell.num 120000, QcCell.str ['b', 'a', 'd']] =
      Except.error ['b', 'a', 'd'] := by
  obtain ⟨⟨e, he⟩, -⟩ := C5_time_uncoercible_fatal
    [QcCell.num 120000, QcCell.str ['b', 'a', 'd']]
    (QcCell.str ['b', 'a', 'd']) (by decide) (by decide)
  exact rfl

/-- Counterexample to C6 as stated: when the `StudyDate` column is
float-typed, `astype(str)` renders the date as `"20170213.0"`, and the
`.str.split('.').str[0]` step then cuts the suffix at the first `'.'` —
dropping the entire 6-digit series time, so the suffix is not the date
string followed by 6 digits of time. -/
theorem C6_counterexample :
    dicomFilenameEndsWith "20170213.0".data (zfill6 (pyStrNat 123456)) =
      "20170213".data ∧
    dicomFilenameEndsWith "20170213.0".data (zfill6 (pyStrNat 123456)) ≠
      "20170213.0".data ++ zfill6 (pyStrNat 123456) := by
  constructor
  · decide
  · decide

/-- C6 (amended): for every normalized row whose study-date string
contains no `'.'` and whose series-time value is below 1000000, the
filename suffix is the study-date string followed by exactly 6 digits of
series time (zero-padded, `"000000"` when the time is missing); when the
study-date string contains a `'.'` (a float-rendered date), everything
from the first `'.'` on — including all time digits — is cut from the
suffix. -/
theorem C6_suffix_six_digits (dateStr : List Char) (x : QcCell)
    (ts : List Char) (hdot : '.' ∉ dateStr)
    (hok : padSeriesTime x = Except.ok ts) (hsmall : timeSmall x = true) :
    dicomFilenameEndsWith dateStr ts = dateStr ++ ts ∧ ts.length = 6 ∧
    ∀ c ∈ ts, c.isDigit = true := by
  obtain ⟨hlen, hdig⟩ := padSeriesTime_ok_shape x ts hok hsmall
  refine ⟨?_, hlen, hdig⟩
  unfold dicomFilenameEndsWith
  rw [List.takeWhile_eq_self_iff.mpr]
  intro c hc
  rcases List.mem_append.mp hc with h1 | h2
  · have hne : c ≠ '.' := fun hcc => hdot (hcc ▸ h1)
    simpa using hne
  · have hcd := hdig c h2
    have hne : c ≠ '.' := by
      intro hcc
      rw [hcc] at hcd
      exact absurd hcd (by decide)
    simpa using hne

/-- Witness for C6 (amended): an integer-rendered date with time 123456
gives the suffix `"20170213" ++ "123456"`, whose time field has length
6. -/
theorem C6_suffix_six_digits_witness :
    dicomFilenameEndsWith "20170213".data (zfill6 (pyStrNat 123456)) =
      "20170213".data ++ zfill6 (pyStrNat 123456) ∧
    (zfill6 (pyStrNat 123456)).length = 6 :=
  ⟨(C6_suffix_six_digits "20170213".data (QcCell.num 123456)
      (zfill6 (pyStrNat 123456)) (by decide) rfl (by decide)).1,
   (C6_suffix_six_digits "20170213".data (QcCell.num 123456)
      (zfill6 (pyStrNat 123456)) (by decide) rfl (by decide)).2.1⟩

end Abcd
